import Mathlib

/-!
Shallow embedding of the Random Operand Framework of the mars tensor
library, restricted to the two distributions present in the source:
`src/mars/tensor/expressions/random/uniform.py` and
`src/mars/tensor/expressions/random/weibull.py`.

Components that live outside those two files (`handle_array` and the
`TensorRandomOperandMixin` in `random/core.py`, the operand base classes
in `mars.operands`, `RandomState._handle_size`, and numpy itself) are
modelled from the spec where noted; the two source files are embedded
directly.
-/

/-- A numeric distribution parameter as accepted by the public functions:
either a python scalar or an array-like carrying a shape and its elements
in row-major order.  Numbers are modelled as rationals. -/
inductive Param where
  | scalar (x : ℚ)
  | array (shape : List ℕ) (data : List ℚ)
deriving DecidableEq, Repr

/-- The shape a parameter contributes to broadcasting: scalars are 0-d. -/
def Param.pshape : Param → List ℕ
  | .scalar _ => []
  | .array s _ => s

/-- The elements of a parameter. -/
def Param.elems : Param → List ℚ
  | .scalar x => [x]
  | .array _ d => d

/-- Whether the parameter is array-like (eligible to be a graph input)
rather than a scalar constant. -/
def Param.isArrayLike : Param → Bool
  | .scalar _ => false
  | .array _ _ => true

/-- Resolved numpy element types (the ones reachable in this model). -/
inductive NpDtype where
  | float64
  | float32
  | int64
deriving DecidableEq, Repr

/-- A caller-supplied dtype request, before `np.dtype` canonicalization
(strings and type objects a caller may pass). -/
inductive DtypeSpec where
  | f8
  | float64str
  | f4
  | float32str
  | i8
deriving DecidableEq, Repr

/-- Canonicalization by `np.dtype` of a caller-supplied dtype request. -/
def npDtype : DtypeSpec → NpDtype
  | .f8 => .float64
  | .float64str => .float64
  | .f4 => .float32
  | .float32str => .float32
  | .i8 => .int64

/-- The error taxonomy of the spec (section 7).  `parameterDomainError`
stands for the domain-constraint error numpy raises from a sampling
primitive (a `ValueError` such as `a < 0`). -/
inductive RandError where
  | typeConversionError
  | invalidShapeError
  | parameterDomainError
  | broadcastShapeError
deriving DecidableEq, Repr

/-- The caller's reproducible random state (`mars` `RandomState`): `_state`
is an opaque handle, modelled as a natural number. -/
structure RandomState where
  state : ℕ
deriving DecidableEq, Repr

/-- A throwaway numpy generator, as created by `np.random.RandomState()`
inside the dtype probe; its seed comes from OS entropy, modelled as an
explicit `entropy` argument of the public functions. -/
structure NpRandomState where
  seed : ℕ
deriving DecidableEq, Repr

/-- A zero-size eager numpy array, of which only shape and dtype matter. -/
structure NpArray where
  shape : List ℕ
  dtype : NpDtype
deriving DecidableEq, Repr

/-- Modelled from the spec: the numeric-library collaborator's zero-size
sampling primitive for the uniform distribution (spec section 6), i.e.
`np.random.RandomState().uniform(low, high, size=(0,))`.  The uniform
primitive has no domain constraint; the legacy numpy generator always
produces `float64` samples, and a zero-size draw consumes nothing from
the generator. -/
def npUniformSample (g : NpRandomState) (low high : Param) (size : List ℕ) :
    NpArray × NpRandomState :=
  let _ := low
  let _ := high
  (⟨size, .float64⟩, g)

/-- Modelled from the spec: the numeric-library collaborator's zero-size
sampling primitive for the Weibull distribution (spec section 6), i.e.
`np.random.RandomState().weibull(a, size=(0,))`.  numpy validates the
domain constraint of the shape parameter before drawing: a negative `a`
raises the distribution-specific domain error (`ValueError: a < 0`, the
spec's `ParameterDomainError`); `a = 0` is accepted.  Samples are
`float64`, and a zero-size draw consumes nothing from the generator. -/
def npWeibullSample (g : NpRandomState) (a : Param) (size : List ℕ) :
    Except RandError (NpArray × NpRandomState) :=
  if a.elems.all (fun x => 0 ≤ x) then .ok (⟨size, .float64⟩, g)
  else .error .parameterDomainError

/-- Modelled from the spec: the Parameter Normalizer `handle_array` of
`random/core.py` (not in src/), spec section 4.1: a zero-cost,
shape-preserving array-like view of a numeric parameter, suitable for
dtype probing.  `Param` values are numeric by construction, so the
`TypeConversionError` branch of the contract is unreachable here and the
normalizer is the identity view. -/
def handle_array (p : Param) : Param := p

/-- The user-supplied `size` argument: absent, an integer, or a tuple
(python integers may be negative, hence `ℤ`). -/
inductive SizeArg where
  | none
  | int (n : ℤ)
  | tuple (dims : List ℤ)
deriving DecidableEq, Repr

/-- Modelled from the spec: `RandomState._handle_size`, the random-state
collaborator's size canonicalization `deriveCanonicalSize` (spec sections
4.2 and 6): `None` defers shape resolution, an integer becomes a 1-tuple,
a tuple is returned as-is, after validating all dimensions are
non-negative integers (`InvalidShapeError` otherwise).  It reads no
mutable state. -/
def handleSize : SizeArg → Except RandError (Option (List ℕ))
  | .none => .ok Option.none
  | .int n => if 0 ≤ n then .ok (some [n.toNat]) else .error .invalidShapeError
  | .tuple dims =>
      if ∀ d ∈ dims, 0 ≤ d then .ok (some (dims.map Int.toNat))
      else .error .invalidShapeError

/-- One step of right-aligned numpy broadcasting, on reversed shapes. -/
def bcastRev : List ℕ → List ℕ → Option (List ℕ)
  | [], ys => some ys
  | xs, [] => some xs
  | x :: xs, y :: ys =>
      match bcastRev xs ys with
      | Option.none => Option.none
      | some rest =>
          if x = 1 then some (y :: rest)
          else if y = 1 then some (x :: rest)
          else if x = y then some (x :: rest)
          else Option.none

/-- Modelled from the spec: numpy broadcasting of two shapes (spec
section 4.5 step 2 and the glossary): dimensions align from the right,
a dimension of size 1 broadcasts against any size, mismatched non-1
sizes are incompatible. -/
def broadcastShape (xs ys : List ℕ) : Option (List ℕ) :=
  (bcastRev xs.reverse ys.reverse).map List.reverse

/-- Broadcast a list of shapes left to right, starting from the scalar
shape. -/
def broadcastAll (shapes : List (List ℕ)) : Option (List ℕ) :=
  shapes.foldl
    (fun acc s =>
      match acc with
      | Option.none => Option.none
      | some a => broadcastShape a s)
    (some [])

/-- Modelled from the spec: the Graph Node Constructor's advertised-shape
computation (spec section 4.5 step 2, realized by the
`TensorRandomOperandMixin` in `random/core.py`, not in src/): if the
operand's size is resolved, use it; otherwise the broadcast of the
array-like input shapes, raising `BroadcastShapeError` on incompatible
shapes. -/
def calcShape (size : Option (List ℕ)) (params : List Param) :
    Except RandError (List ℕ) :=
  match size with
  | some s => .ok s
  | Option.none =>
      match broadcastAll ((params.filter Param.isArrayLike).map Param.pshape) with
      | some s => .ok s
      | Option.none => .error .broadcastShapeError

/-- The dtype value sitting in `kw['dtype']` when the operand constructor
runs: either the caller's request (still to be canonicalized by
`np.dtype`) or the dtype probed from a zero-size numpy array (on which
`np.dtype` is the identity). -/
inductive DtypeArg where
  | fromSpec (s : DtypeSpec)
  | probed (d : NpDtype)
deriving DecidableEq, Repr

/-- The first line of `TensorUniform.__init__` and
`TensorWeibull.__init__`: `dtype = np.dtype(dtype) if dtype is not None
else dtype`. -/
def initDtype : Option DtypeArg → Option NpDtype
  | Option.none => Option.none
  | some (.fromSpec s) => some (npDtype s)
  | some (.probed d) => some d

/-- The state of the `dtype` keyword in `**kw` at the call: the key may be
absent, or present with value `None` or a dtype request (`'dtype' in kw`
is about key presence, not the value). -/
inductive DtypeKw where
  | absent
  | given (d : Option DtypeSpec)
deriving DecidableEq, Repr

/-- The `TensorUniform` operand: fields `_size`, `_state`, `_dtype`,
`_gpu` are set by `__init__`; the input fields `_low`, `_high` are filled
by the mixin's `new_tensor` from the inputs.  The operand is immutable,
so it is built here in one record.  The `gpu` field defaults to `false`
when the caller passed `None` (modelled from the spec, section 3:
`gpuFlag` is a boolean device hint defaulting to false; the coercion
lives in the `mars.operands` base class, not in src/). -/
structure UniformOperand where
  size : Option (List ℕ)
  state : ℕ
  dtype : Option NpDtype
  gpu : Bool
  low : Param
  high : Param
deriving DecidableEq, Repr

/-- The `TensorWeibull` operand, analogous to `UniformOperand` with the
single input field `_a`. -/
structure WeibullOperand where
  size : Option (List ℕ)
  state : ℕ
  dtype : Option NpDtype
  gpu : Bool
  a : Param
deriving DecidableEq, Repr

/-- A lazy graph node over an operand type: the operand, the registered
array-like inputs, the advertised shape, and the pass-through chunk
hint (`raw_chunks`).  Modelled from the spec, section 4.5 (the mixin's
`new_tensor` is not in src/). -/
structure RandNode (Op : Type) where
  op : Op
  inputs : List Param
  shape : List ℕ
  rawChunks : Option (List ℕ)
deriving DecidableEq, Repr

/-- A successful public-function call: the returned node and the caller's
random state as it stands after the call. -/
structure CallOk (Op : Type) where
  node : RandNode Op
  finalState : RandomState
deriving DecidableEq, Repr

instance {ε α : Type} [DecidableEq ε] [DecidableEq α] :
    DecidableEq (Except ε α) := fun x y =>
  match x, y with
  | .error e, .error f =>
      if h : e = f then .isTrue (congrArg Except.error h)
      else .isFalse (fun c => h (Except.error.inj c))
  | .error _, .ok _ => .isFalse (fun c => Except.noConfusion c)
  | .ok _, .error _ => .isFalse (fun c => Except.noConfusion c)
  | .ok a, .ok b =>
      if h : a = b then .isTrue (congrArg Except.ok h)
      else .isFalse (fun c => h (Except.ok.inj c))

/-- The observable outcome of a public-function call: how many zero-size
eager sampling probes were performed, and the returned node or the
exception raised. -/
structure CallOut (Op : Type) where
  probes : ℕ
  result : Except RandError (CallOk Op)
deriving DecidableEq, Repr

/-- The public function `uniform(random_state, low=0.0, high=1.0,
size=None, chunks=None, gpu=None, **kw)` of
`src/mars/tensor/expressions/random/uniform.py`:

* lines 116-118: if `'dtype'` is not a key of `kw`, probe the dtype with
  a zero-size draw from a throwaway `np.random.RandomState()` on the
  normalized parameters;
* line 119: `size = random_state._handle_size(size)`;
* line 120: `op = TensorUniform(size=size, state=random_state._state,
  gpu=gpu, **kw)`;
* line 121: `return op(low, high, chunks=chunks)`, which builds the lazy
  node via the mixin's `new_tensor`.

`entropy` seeds the throwaway generator; `random_state` is threaded
through explicitly and returned in `finalState`. -/
def uniform (random_state : RandomState) (low high : Param) (size : SizeArg)
    (chunks : Option (List ℕ)) (gpu : Option Bool) (kw : DtypeKw)
    (entropy : ℕ) : CallOut UniformOperand :=
  let (probes, kwDtype) :=
    match kw with
    | .absent =>
        let g : NpRandomState := ⟨entropy⟩
        let probed := npUniformSample g (handle_array low) (handle_array high) [0]
        (1, some (DtypeArg.probed probed.1.dtype))
    | .given Option.none => (0, Option.none)
    | .given (some d) => (0, some (DtypeArg.fromSpec d))
  match handleSize size with
  | .error e => ⟨probes, .error e⟩
  | .ok sz =>
      let op : UniformOperand :=
        ⟨sz, random_state.state, initDtype kwDtype, gpu.getD false, low, high⟩
      match calcShape sz [low, high] with
      | .error e => ⟨probes, .error e⟩
      | .ok shape =>
          ⟨probes,
           .ok ⟨⟨op, [low, high].filter Param.isArrayLike, shape, chunks⟩,
                random_state⟩⟩

/-- The public function `weibull(random_state, a, size=None, chunks=None,
gpu=None, **kw)` of `src/mars/tensor/expressions/random/weibull.py`:

* lines 132-134: if `'dtype'` is not a key of `kw`, probe the dtype with
  a zero-size draw from a throwaway `np.random.RandomState()` on the
  normalized parameter (this draw is where numpy's `a < 0` domain check
  happens — `weibull` itself performs no validation);
* line 135: `size = random_state._handle_size(size)`;
* line 136: `op = TensorWeibull(size=size, state=random_state._state,
  gpu=gpu, **kw)`;
* line 137: `return op(a, chunks=chunks)`. -/
def weibull (random_state : RandomState) (a : Param) (size : SizeArg)
    (chunks : Option (List ℕ)) (gpu : Option Bool) (kw : DtypeKw)
    (entropy : ℕ) : CallOut WeibullOperand :=
  let probeStep : ℕ × Except RandError (Option DtypeArg) :=
    match kw with
    | .absent =>
        let g : NpRandomState := ⟨entropy⟩
        (1, (npWeibullSample g (handle_array a) [0]).map
              (fun probed => some (DtypeArg.probed probed.1.dtype)))
    | .given Option.none => (0, .ok Option.none)
    | .given (some d) => (0, .ok (some (DtypeArg.fromSpec d)))
  let probes := probeStep.1
  match probeStep.2 with
  | .error e => ⟨probes, .error e⟩
  | .ok kwDtype =>
      match handleSize size with
      | .error e => ⟨probes, .error e⟩
      | .ok sz =>
          let op : WeibullOperand :=
            ⟨sz, random_state.state, initDtype kwDtype, gpu.getD false, a⟩
          match calcShape sz [a] with
          | .error e => ⟨probes, .error e⟩
          | .ok shape =>
              ⟨probes,
               .ok ⟨⟨op, [a].filter Param.isArrayLike, shape, chunks⟩,
                    random_state⟩⟩

/-- The `kw['dtype']` value the operand constructor receives for each
state of the `dtype` keyword, in the `uniform` call (where the probe
always yields `float64`). -/
def uniformKwDtype : DtypeKw → Option DtypeArg
  | .absent => some (.probed NpDtype.float64)
  | .given Option.none => Option.none
  | .given (some d) => some (.fromSpec d)

/-- Inversion: a successful `uniform` call determines its node and final
state from the intermediate size, shape and dtype computations. -/
lemma uniform_ok_inv {rs : RandomState} {low high : Param} {size : SizeArg}
    {chunks : Option (List ℕ)} {gpu : Option Bool} {kw : DtypeKw} {e : ℕ}
    {cu : CallOk UniformOperand}
    (h : (uniform rs low high size chunks gpu kw e).result = Except.ok cu) :
    ∃ sz shape,
      handleSize size = Except.ok sz ∧
      calcShape sz [low, high] = Except.ok shape ∧
      cu = ⟨⟨⟨sz, rs.state, initDtype (uniformKwDtype kw), gpu.getD false,
        low, high⟩, [low, high].filter Param.isArrayLike, shape, chunks⟩,
        rs⟩ := by
  cases kw with
  | absent =>
      unfold uniform at h
      dsimp only at h
      rcases hs : handleSize size with er | sz <;> rw [hs] at h <;>
        (try dsimp only at h)
      · exact Except.noConfusion h
      · rcases hc : calcShape sz [low, high] with er | shape <;> rw [hc] at h <;>
          (try dsimp only at h)
        · exact Except.noConfusion h
        · injection h with h
          exact ⟨sz, shape, rfl, by first | rfl | exact hc, h.symm⟩
  | given d =>
      cases d with
      | none =>
          unfold uniform at h
          dsimp only at h
          rcases hs : handleSize size with er | sz <;> rw [hs] at h <;>
            (try dsimp only at h)
          · exact Except.noConfusion h
          · rcases hc : calcShape sz [low, high] with er | shape <;>
              rw [hc] at h <;> (try dsimp only at h)
            · exact Except.noConfusion h
            · injection h with h
              exact ⟨sz, shape, rfl, by first | rfl | exact hc, h.symm⟩
      | some d =>
          unfold uniform at h
          dsimp only at h
          rcases hs : handleSize size with er | sz <;> rw [hs] at h <;>
            (try dsimp only at h)
          · exact Except.noConfusion h
          · rcases hc : calcShape sz [low, high] with er | shape <;>
              rw [hc] at h <;> (try dsimp only at h)
            · exact Except.noConfusion h
            · injection h with h
              exact ⟨sz, shape, rfl, by first | rfl | exact hc, h.symm⟩

/-- Inversion: a successful `weibull` call determines its node and final
state from the intermediate probe, size and shape computations. -/
lemma weibull_ok_inv {rs : RandomState} {a : Param} {size : SizeArg}
    {chunks : Option (List ℕ)} {gpu : Option Bool} {kw : DtypeKw} {e : ℕ}
    {cw : CallOk WeibullOperand}
    (h : (weibull rs a size chunks gpu kw e).result = Except.ok cw) :
    ∃ sz shape kwd,
      handleSize size = Except.ok sz ∧
      calcShape sz [a] = Except.ok shape ∧
      (match kw with
        | DtypeKw.absent =>
            ∃ probed, npWeibullSample ⟨e⟩ (handle_array a) [0] =
                Except.ok probed ∧
              kwd = some (DtypeArg.probed probed.1.dtype)
        | DtypeKw.given Option.none => kwd = (Option.none : Option DtypeArg)
        | DtypeKw.given (some d) => kwd = some (DtypeArg.fromSpec d)) ∧
      cw = ⟨⟨⟨sz, rs.state, initDtype kwd, gpu.getD false, a⟩,
        [a].filter Param.isArrayLike, shape, chunks⟩, rs⟩ := by
  cases kw with
  | absent =>
      unfold weibull at h
      dsimp only at h
      rcases hp : npWeibullSample ⟨e⟩ (handle_array a) [0] with er | probed <;>
        rw [hp] at h <;> (try dsimp only [Except.map] at h)
      · exact Except.noConfusion h
      · rcases hs : handleSize size with er | sz <;> rw [hs] at h <;>
          (try dsimp only at h)
        · exact Except.noConfusion h
        · rcases hc : calcShape sz [a] with er | shape <;> rw [hc] at h <;>
            (try dsimp only at h)
          · exact Except.noConfusion h
          · injection h with h
            exact ⟨sz, shape, some (DtypeArg.probed probed.1.dtype), rfl,
              by first | rfl | exact hc, ⟨probed, rfl, rfl⟩, h.symm⟩
  | given d =>
      cases d with
      | none =>
          unfold weibull at h
          dsimp only at h
          rcases hs : handleSize size with er | sz <;> rw [hs] at h <;>
            (try dsimp only at h)
          · exact Except.noConfusion h
          · rcases hc : calcShape sz [a] with er | shape <;> rw [hc] at h <;>
              (try dsimp only at h)
            · exact Except.noConfusion h
            · injection h with h
              exact ⟨sz, shape, Option.none, rfl,
                by first | rfl | exact hc, rfl, h.symm⟩
      | some d =>
          unfold weibull at h
          dsimp only at h
          rcases hs : handleSize size with er | sz <;> rw [hs] at h <;>
            (try dsimp only at h)
          · exact Except.noConfusion h
          · rcases hc : calcShape sz [a] with er | shape <;> rw [hc] at h <;>
              (try dsimp only at h)
            · exact Except.noConfusion h
            · injection h with h
              exact ⟨sz, shape, some (DtypeArg.fromSpec d), rfl,
                by first | rfl | exact hc, rfl, h.symm⟩

/-- The probe count of a `uniform` call depends only on whether the
`dtype` key was present in `kw`. -/
lemma uniform_probes_eq (rs : RandomState) (low high : Param) (size : SizeArg)
    (chunks : Option (List ℕ)) (gpu : Option Bool) (kw : DtypeKw) (e : ℕ) :
    (uniform rs low high size chunks gpu kw e).probes =
      (match kw with
        | DtypeKw.absent => 1
        | DtypeKw.given _ => 0) := by
  unfold uniform
  cases kw with
  | absent =>
      dsimp only
      rcases handleSize size with er | sz
      · rfl
      · dsimp only
        rcases calcShape sz [low, high] with er | shape <;> rfl
  | given d =>
      cases d <;> dsimp only <;>
        (rcases handleSize size with er | sz
         · rfl
         · dsimp only
           rcases calcShape sz [low, high] with er | shape <;> rfl)

/-- The probe count of a `weibull` call depends only on whether the
`dtype` key was present in `kw`. -/
lemma weibull_probes_eq (rs : RandomState) (a : Param) (size : SizeArg)
    (chunks : Option (List ℕ)) (gpu : Option Bool) (kw : DtypeKw) (e : ℕ) :
    (weibull rs a size chunks gpu kw e).probes =
      (match kw with
        | DtypeKw.absent => 1
        | DtypeKw.given _ => 0) := by
  unfold weibull
  cases kw with
  | absent =>
      dsimp only
      rcases npWeibullSample ⟨e⟩ (handle_array a) [0] with er | probed
      · rfl
      · dsimp only [Except.map]
        rcases handleSize size with er | sz
        · rfl
        · dsimp only
          rcases calcShape sz [a] with er | shape <;> rfl
  | given d =>
      cases d <;> dsimp only <;>
        (rcases handleSize size with er | sz
         · rfl
         · dsimp only
           rcases calcShape sz [a] with er | shape <;> rfl)

/-- C1: for `uniform` and `weibull` called without an explicit dtype
keyword, the dtype of the constructed operand equals the dtype of the
array returned by the equivalent eager numpy call on the normalized
parameters with `size=(0,)`. -/
theorem c1_dtype_matches_numpy_probe
    (rs : RandomState) (low high a : Param) (size : SizeArg)
    (chunks : Option (List ℕ)) (gpu : Option Bool) (e : ℕ)
    (cu : CallOk UniformOperand) (cw : CallOk WeibullOperand) :
    ((uniform rs low high size chunks gpu DtypeKw.absent e).result =
        Except.ok cu →
      cu.node.op.dtype =
        some (npUniformSample ⟨e⟩ (handle_array low) (handle_array high)
          [0]).1.dtype) ∧
    ((weibull rs a size chunks gpu DtypeKw.absent e).result = Except.ok cw →
      ∃ probed, npWeibullSample ⟨e⟩ (handle_array a) [0] = Except.ok probed ∧
        cw.node.op.dtype = some probed.1.dtype) := by
  constructor
  · intro h
    unfold uniform at h
    dsimp only at h
    rcases hs : handleSize size with er | sz <;> rw [hs] at h <;>
      (try dsimp only at h)
    · exact Except.noConfusion h
    · rcases hc : calcShape sz [low, high] with er | shape <;> rw [hc] at h <;>
        (try dsimp only at h)
      · exact Except.noConfusion h
      · injection h with h
        subst h
        rfl
  · intro h
    unfold weibull at h
    dsimp only at h
    rcases hp : npWeibullSample ⟨e⟩ (handle_array a) [0] with er | probed <;>
      rw [hp] at h <;> (try dsimp only [Except.map] at h)
    · exact Except.noConfusion h
    · rcases hs : handleSize size with er | sz <;> rw [hs] at h <;>
        (try dsimp only at h)
      · exact Except.noConfusion h
      · rcases hc : calcShape sz [a] with er | shape <;> rw [hc] at h <;>
          (try dsimp only at h)
        · exact Except.noConfusion h
        · injection h with h
          subst h
          exact ⟨probed, rfl, rfl⟩

/-- The dtype-probe step of `weibull`, written as a single conditional:
the probed `kw['dtype']` value is `float64` when the shape parameter is
in domain, and the probe raises the domain error otherwise. -/
lemma weibull_probe_step (g : NpRandomState) (a : Param) (s : List ℕ) :
    Except.map (fun probed => some (DtypeArg.probed probed.1.dtype))
        (npWeibullSample g a s) =
      if a.elems.all (fun x => 0 ≤ x) then
        Except.ok (some (DtypeArg.probed NpDtype.float64))
      else Except.error RandError.parameterDomainError := by
  unfold npWeibullSample
  split <;> rfl

/-- A `uniform` call does not depend on the seed of the throwaway probe
generator. -/
lemma uniform_entropy_eq (rs : RandomState) (low high : Param)
    (size : SizeArg) (chunks : Option (List ℕ)) (gpu : Option Bool)
    (kw : DtypeKw) (e₁ e₂ : ℕ) :
    uniform rs low high size chunks gpu kw e₁ =
      uniform rs low high size chunks gpu kw e₂ := by
  cases kw with
  | absent => rfl
  | given d => cases d <;> rfl

/-- A `weibull` call does not depend on the seed of the throwaway probe
generator. -/
lemma weibull_entropy_eq (rs : RandomState) (a : Param) (size : SizeArg)
    (chunks : Option (List ℕ)) (gpu : Option Bool) (kw : DtypeKw)
    (e₁ e₂ : ℕ) :
    weibull rs a size chunks gpu kw e₁ = weibull rs a size chunks gpu kw e₂ := by
  cases kw with
  | absent =>
      unfold weibull
      dsimp only
      rw [weibull_probe_step, weibull_probe_step]
  | given d => cases d <;> rfl

/-- Witness for C1: concrete probing calls of both distributions, with
the probe dtypes they must match. -/
theorem c1_dtype_matches_numpy_probe_witness :
    ((uniform ⟨7⟩ (Param.scalar 0) (Param.scalar 1) SizeArg.none Option.none
        Option.none DtypeKw.absent 3).result =
      Except.ok ⟨⟨⟨Option.none, 7, some NpDtype.float64, false, Param.scalar 0,
        Param.scalar 1⟩, [], [], Option.none⟩, ⟨7⟩⟩) ∧
    (CallOk.node (⟨⟨⟨Option.none, 7, some NpDtype.float64, false,
        Param.scalar 0, Param.scalar 1⟩, [], [], Option.none⟩, ⟨7⟩⟩ :
        CallOk UniformOperand)).op.dtype =
      some (npUniformSample ⟨3⟩ (handle_array (Param.scalar 0))
        (handle_array (Param.scalar 1)) [0]).1.dtype ∧
    ((weibull ⟨7⟩ (Param.scalar 5) SizeArg.none Option.none Option.none
        DtypeKw.absent 3).result =
      Except.ok ⟨⟨⟨Option.none, 7, some NpDtype.float64, false,
        Param.scalar 5⟩, [], [], Option.none⟩, ⟨7⟩⟩) ∧
    ∃ probed, npWeibullSample ⟨3⟩ (handle_array (Param.scalar 5)) [0] =
        Except.ok probed ∧
      (CallOk.node (⟨⟨⟨Option.none, 7, some NpDtype.float64, false,
        Param.scalar 5⟩, [], [], Option.none⟩, ⟨7⟩⟩ :
        CallOk WeibullOperand)).op.dtype =
        some probed.1.dtype :=
  ⟨by decide,
   (c1_dtype_matches_numpy_probe ⟨7⟩ (Param.scalar 0) (Param.scalar 1)
      (Param.scalar 5) SizeArg.none Option.none Option.none 3
      (⟨⟨⟨Option.none, 7, some NpDtype.float64, false, Param.scalar 0,
        Param.scalar 1⟩, [], [], Option.none⟩, ⟨7⟩⟩ : CallOk UniformOperand)
      (⟨⟨⟨Option.none, 7, some NpDtype.float64, false, Param.scalar 5⟩,
        [], [], Option.none⟩, ⟨7⟩⟩ : CallOk WeibullOperand)).1 (by decide),
   by decide,
   (c1_dtype_matches_numpy_probe ⟨7⟩ (Param.scalar 0) (Param.scalar 1)
      (Param.scalar 5) SizeArg.none Option.none Option.none 3
      (⟨⟨⟨Option.none, 7, some NpDtype.float64, false, Param.scalar 0,
        Param.scalar 1⟩, [], [], Option.none⟩, ⟨7⟩⟩ : CallOk UniformOperand)
      (⟨⟨⟨Option.none, 7, some NpDtype.float64, false, Param.scalar 5⟩,
        [], [], Option.none⟩, ⟨7⟩⟩ : CallOk WeibullOperand)).2 (by decide)⟩

/-- C2 counterexample: `uniform(rs, 0, 1, dtype=None)` — the `dtype` key
present with value `None` — constructs a node whose operand's dtype field
is `None`, so the dtype field is not non-`None` for every combination of
keyword arguments. -/
theorem c2_counterexample_dtype_none :
    (uniform ⟨0⟩ (Param.scalar 0) (Param.scalar 1) SizeArg.none Option.none
        Option.none (DtypeKw.given Option.none) 0).result =
      Except.ok ⟨⟨⟨Option.none, 0, Option.none, false, Param.scalar 0,
        Param.scalar 1⟩, [], [], Option.none⟩, ⟨0⟩⟩ := by decide

/-- C2 (amended): for every call to `uniform` or `weibull` in which the
caller does not pass `dtype=None` explicitly — the `dtype` key is absent,
or a real dtype is given — the constructed operand's dtype field is not
`None`: when the key is absent it is derived by zero-size probing before
the operand is built. -/
theorem c2_amended_dtype_not_none
    (rs : RandomState) (low high a : Param) (size : SizeArg)
    (chunks : Option (List ℕ)) (gpu : Option Bool) (kw : DtypeKw) (e : ℕ)
    (hkw : kw ≠ DtypeKw.given Option.none)
    (cu : CallOk UniformOperand) (cw : CallOk WeibullOperand) :
    ((uniform rs low high size chunks gpu kw e).result = Except.ok cu →
      cu.node.op.dtype ≠ Option.none) ∧
    ((weibull rs a size chunks gpu kw e).result = Except.ok cw →
      cw.node.op.dtype ≠ Option.none) := by
  constructor
  · intro h
    obtain ⟨sz, shape, -, -, rfl⟩ := uniform_ok_inv h
    cases kw with
    | absent => simp [uniformKwDtype, initDtype]
    | given d =>
        cases d with
        | none => exact absurd rfl hkw
        | some d => simp [uniformKwDtype, initDtype]
  · intro h
    obtain ⟨sz, shape, kwd, -, -, hkwd, rfl⟩ := weibull_ok_inv h
    cases kw with
    | absent =>
        obtain ⟨probed, -, rfl⟩ := hkwd
        simp [initDtype]
    | given d =>
        cases d with
        | none => exact absurd rfl hkw
        | some d =>
            subst hkwd
            simp [initDtype]

/-- Witness for the amended C2 at concrete inputs (probing calls). -/
theorem c2_amended_dtype_not_none_witness :
    DtypeKw.absent ≠ DtypeKw.given Option.none ∧
    ((uniform ⟨7⟩ (Param.scalar 0) (Param.scalar 1) SizeArg.none Option.none
        Option.none DtypeKw.absent 3).result =
      Except.ok ⟨⟨⟨Option.none, 7, some NpDtype.float64, false, Param.scalar 0,
        Param.scalar 1⟩, [], [], Option.none⟩, ⟨7⟩⟩) ∧
    (CallOk.node (⟨⟨⟨Option.none, 7, some NpDtype.float64, false,
        Param.scalar 0, Param.scalar 1⟩, [], [], Option.none⟩, ⟨7⟩⟩ :
        CallOk UniformOperand)).op.dtype ≠ Option.none ∧
    ((weibull ⟨7⟩ (Param.scalar 5) SizeArg.none Option.none Option.none
        DtypeKw.absent 3).result =
      Except.ok ⟨⟨⟨Option.none, 7, some NpDtype.float64, false,
        Param.scalar 5⟩, [], [], Option.none⟩, ⟨7⟩⟩) ∧
    (CallOk.node (⟨⟨⟨Option.none, 7, some NpDtype.float64, false,
        Param.scalar 5⟩, [], [], Option.none⟩, ⟨7⟩⟩ :
        CallOk WeibullOperand)).op.dtype ≠ Option.none :=
  ⟨by decide, by decide,
   (c2_amended_dtype_not_none ⟨7⟩ (Param.scalar 0) (Param.scalar 1)
      (Param.scalar 5) SizeArg.none Option.none Option.none DtypeKw.absent 3
      (by decide)
      (⟨⟨⟨Option.none, 7, some NpDtype.float64, false, Param.scalar 0,
        Param.scalar 1⟩, [], [], Option.none⟩, ⟨7⟩⟩ : CallOk UniformOperand)
      (⟨⟨⟨Option.none, 7, some NpDtype.float64, false, Param.scalar 5⟩,
        [], [], Option.none⟩, ⟨7⟩⟩ : CallOk WeibullOperand)).1 (by decide),
   by decide,
   (c2_amended_dtype_not_none ⟨7⟩ (Param.scalar 0) (Param.scalar 1)
      (Param.scalar 5) SizeArg.none Option.none Option.none DtypeKw.absent 3
      (by decide)
      (⟨⟨⟨Option.none, 7, some NpDtype.float64, false, Param.scalar 0,
        Param.scalar 1⟩, [], [], Option.none⟩, ⟨7⟩⟩ : CallOk UniformOperand)
      (⟨⟨⟨Option.none, 7, some NpDtype.float64, false, Param.scalar 5⟩,
        [], [], Option.none⟩, ⟨7⟩⟩ : CallOk WeibullOperand)).2 (by decide)⟩

/-- C3: the dtype probe draws from a throwaway source independent of the
caller's `random_state`: a probing call's outcome does not depend on the
throwaway generator's seed, every successful call (probing or not)
returns the caller's random state unchanged, and hence a probing run and
an explicit-dtype run observe the same `random_state._state`. -/
theorem c3_probe_source_independent
    (rs : RandomState) (low high a : Param) (size : SizeArg)
    (chunks : Option (List ℕ)) (gpu : Option Bool) (d : DtypeSpec)
    (e₁ e₂ : ℕ) (cu cu' : CallOk UniformOperand)
    (cw cw' : CallOk WeibullOperand) :
    (uniform rs low high size chunks gpu DtypeKw.absent e₁ =
      uniform rs low high size chunks gpu DtypeKw.absent e₂) ∧
    ((uniform rs low high size chunks gpu DtypeKw.absent e₁).result =
        Except.ok cu → cu.finalState = rs) ∧
    ((uniform rs low high size chunks gpu
        (DtypeKw.given (some d)) e₂).result = Except.ok cu' →
      cu'.finalState = rs) ∧
    (weibull rs a size chunks gpu DtypeKw.absent e₁ =
      weibull rs a size chunks gpu DtypeKw.absent e₂) ∧
    ((weibull rs a size chunks gpu DtypeKw.absent e₁).result =
        Except.ok cw → cw.finalState = rs) ∧
    ((weibull rs a size chunks gpu (DtypeKw.given (some d)) e₂).result =
        Except.ok cw' → cw'.finalState = rs) := by
  refine ⟨uniform_entropy_eq rs low high size chunks gpu DtypeKw.absent e₁ e₂,
    ?_, ?_, weibull_entropy_eq rs a size chunks gpu DtypeKw.absent e₁ e₂,
    ?_, ?_⟩
  · intro h
    obtain ⟨sz, shape, -, -, rfl⟩ := uniform_ok_inv h
    rfl
  · intro h
    obtain ⟨sz, shape, -, -, rfl⟩ := uniform_ok_inv h
    rfl
  · intro h
    obtain ⟨sz, shape, kwd, -, -, -, rfl⟩ := weibull_ok_inv h
    rfl
  · intro h
    obtain ⟨sz, shape, kwd, -, -, -, rfl⟩ := weibull_ok_inv h
    rfl

/-- Witness for C3 at concrete inputs: two probing seeds and an
explicit-dtype run on the same caller state. -/
theorem c3_probe_source_independent_witness :
    (uniform ⟨7⟩ (Param.scalar 0) (Param.scalar 1) SizeArg.none Option.none
        Option.none DtypeKw.absent 3 =
      uniform ⟨7⟩ (Param.scalar 0) (Param.scalar 1) SizeArg.none Option.none
        Option.none DtypeKw.absent 4) ∧
    ((uniform ⟨7⟩ (Param.scalar 0) (Param.scalar 1) SizeArg.none Option.none
        Option.none DtypeKw.absent 3).result =
      Except.ok ⟨⟨⟨Option.none, 7, some NpDtype.float64, false, Param.scalar 0,
        Param.scalar 1⟩, [], [], Option.none⟩, ⟨7⟩⟩) ∧
    (CallOk.finalState (⟨⟨⟨Option.none, 7, some NpDtype.float64, false,
        Param.scalar 0, Param.scalar 1⟩, [], [], Option.none⟩, ⟨7⟩⟩ :
        CallOk UniformOperand)) = (⟨7⟩ : RandomState) ∧
    ((uniform ⟨7⟩ (Param.scalar 0) (Param.scalar 1) SizeArg.none Option.none
        Option.none (DtypeKw.given (some DtypeSpec.f8)) 4).result =
      Except.ok ⟨⟨⟨Option.none, 7, some NpDtype.float64, false, Param.scalar 0,
        Param.scalar 1⟩, [], [], Option.none⟩, ⟨7⟩⟩) ∧
    (CallOk.finalState (⟨⟨⟨Option.none, 7, some NpDtype.float64, false,
        Param.scalar 0, Param.scalar 1⟩, [], [], Option.none⟩, ⟨7⟩⟩ :
        CallOk UniformOperand)) = (⟨7⟩ : RandomState) ∧
    ((weibull ⟨7⟩ (Param.scalar 5) SizeArg.none Option.none Option.none
        DtypeKw.absent 3).result =
      Except.ok ⟨⟨⟨Option.none, 7, some NpDtype.float64, false,
        Param.scalar 5⟩, [], [], Option.none⟩, ⟨7⟩⟩) ∧
    (CallOk.finalState (⟨⟨⟨Option.none, 7, some NpDtype.float64, false,
        Param.scalar 5⟩, [], [], Option.none⟩, ⟨7⟩⟩ :
        CallOk WeibullOperand)) = (⟨7⟩ : RandomState) :=
  ⟨(c3_probe_source_independent ⟨7⟩ (Param.scalar 0) (Param.scalar 1)
      (Param.scalar 5) SizeArg.none Option.none Option.none DtypeSpec.f8 3 4
      (⟨⟨⟨Option.none, 7, some NpDtype.float64, false, Param.scalar 0,
        Param.scalar 1⟩, [], [], Option.none⟩, ⟨7⟩⟩ : CallOk UniformOperand)
      (⟨⟨⟨Option.none, 7, some NpDtype.float64, false, Param.scalar 0,
        Param.scalar 1⟩, [], [], Option.none⟩, ⟨7⟩⟩ : CallOk UniformOperand)
      (⟨⟨⟨Option.none, 7, some NpDtype.float64, false, Param.scalar 5⟩,
        [], [], Option.none⟩, ⟨7⟩⟩ : CallOk WeibullOperand)
      (⟨⟨⟨Option.none, 7, some NpDtype.float64, false, Param.scalar 5⟩,
        [], [], Option.none⟩, ⟨7⟩⟩ : CallOk WeibullOperand)).1,
   by decide,
   (c3_probe_source_independent ⟨7⟩ (Param.scalar 0) (Param.scalar 1)
      (Param.scalar 5) SizeArg.none Option.none Option.none DtypeSpec.f8 3 4
      (⟨⟨⟨Option.none, 7, some NpDtype.float64, false, Param.scalar 0,
        Param.scalar 1⟩, [], [], Option.none⟩, ⟨7⟩⟩ : CallOk UniformOperand)
      (⟨⟨⟨Option.none, 7, some NpDtype.float64, false, Param.scalar 0,
        Param.scalar 1⟩, [], [], Option.none⟩, ⟨7⟩⟩ : CallOk UniformOperand)
      (⟨⟨⟨Option.none, 7, some NpDtype.float64, false, Param.scalar 5⟩,
        [], [], Option.none⟩, ⟨7⟩⟩ : CallOk WeibullOperand)
      (⟨⟨⟨Option.none, 7, some NpDtype.float64, false, Param.scalar 5⟩,
        [], [], Option.none⟩, ⟨7⟩⟩ : CallOk WeibullOperand)).2.1 (by decide),
   by decide,
   (c3_probe_source_independent ⟨7⟩ (Param.scalar 0) (Param.scalar 1)
      (Param.scalar 5) SizeArg.none Option.none Option.none DtypeSpec.f8 3 4
      (⟨⟨⟨Option.none, 7, some NpDtype.float64, false, Param.scalar 0,
        Param.scalar 1⟩, [], [], Option.none⟩, ⟨7⟩⟩ : CallOk UniformOperand)
      (⟨⟨⟨Option.none, 7, some NpDtype.float64, false, Param.scalar 0,
        Param.scalar 1⟩, [], [], Option.none⟩, ⟨7⟩⟩ : CallOk UniformOperand)
      (⟨⟨⟨Option.none, 7, some NpDtype.float64, false, Param.scalar 5⟩,
        [], [], Option.none⟩, ⟨7⟩⟩ : CallOk WeibullOperand)
      (⟨⟨⟨Option.none, 7, some NpDtype.float64, false, Param.scalar 5⟩,
        [], [], Option.none⟩, ⟨7⟩⟩ : CallOk WeibullOperand)).2.2.1
     (by decide),
   by decide,
   (c3_probe_source_independent ⟨7⟩ (Param.scalar 0) (Param.scalar 1)
      (Param.scalar 5) SizeArg.none Option.none Option.none DtypeSpec.f8 3 4
      (⟨⟨⟨Option.none, 7, some NpDtype.float64, false, Param.scalar 0,
        Param.scalar 1⟩, [], [], Option.none⟩, ⟨7⟩⟩ : CallOk UniformOperand)
      (⟨⟨⟨Option.none, 7, some NpDtype.float64, false, Param.scalar 0,
        Param.scalar 1⟩, [], [], Option.none⟩, ⟨7⟩⟩ : CallOk UniformOperand)
      (⟨⟨⟨Option.none, 7, some NpDtype.float64, false, Param.scalar 5⟩,
        [], [], Option.none⟩, ⟨7⟩⟩ : CallOk WeibullOperand)
      (⟨⟨⟨Option.none, 7, some NpDtype.float64, false, Param.scalar 5⟩,
        [], [], Option.none⟩, ⟨7⟩⟩ : CallOk WeibullOperand)).2.2.2.2.1
     (by decide)⟩

/-- C4 counterexample: two concrete calls whose shape parameter
violates `a > 0`, neither of which raises `ParameterDomainError`:
`weibull(rs, a=-1, dtype='f8')` (negative `a`, explicit dtype) and
`weibull(rs, a=0)` (`a = 0`, no dtype keyword) both return nodes. -/
theorem c4_counterexample_no_domain_error :
    ((weibull ⟨0⟩ (Param.scalar (-1)) SizeArg.none Option.none Option.none
        (DtypeKw.given (some DtypeSpec.f8)) 0).result =
      Except.ok ⟨⟨⟨Option.none, 0, some NpDtype.float64, false,
        Param.scalar (-1)⟩, [], [], Option.none⟩, ⟨0⟩⟩) ∧
    ((weibull ⟨0⟩ (Param.scalar 0) SizeArg.none Option.none Option.none
        DtypeKw.absent 0).result =
      Except.ok ⟨⟨⟨Option.none, 0, some NpDtype.float64, false,
        Param.scalar 0⟩, [], [], Option.none⟩, ⟨0⟩⟩) :=
  ⟨by decide, by decide⟩

/-- C4 (amended): `weibull` performs no domain validation of its own;
the only check on the shape parameter is the one numpy performs inside
the zero-size dtype probe.  When the caller omits the dtype keyword, a negative
normalized parameter makes the probe raise the domain error
synchronously, before any operand is built, while a non-negative scalar
`a` — including `a = 0`, which still violates `a > 0` — is accepted and
yields a node; with an explicit dtype no validation occurs at all and a
node is returned even for a negative scalar `a`. -/
theorem c4_amended_domain_check_only_in_probe
    (rs : RandomState) (a : Param) (x y : ℚ) (size : SizeArg)
    (chunks : Option (List ℕ)) (gpu : Option Bool) (d : DtypeSpec) (e : ℕ) :
    (¬ ((handle_array a).elems.all (fun v => 0 ≤ v) = true) →
      (weibull rs a size chunks gpu DtypeKw.absent e).result =
        Except.error RandError.parameterDomainError) ∧
    (0 ≤ y →
      (weibull rs (Param.scalar y) SizeArg.none chunks gpu
          DtypeKw.absent e).result =
        Except.ok ⟨⟨⟨Option.none, rs.state, some NpDtype.float64,
          gpu.getD false, Param.scalar y⟩, [], [], chunks⟩, rs⟩) ∧
    ((weibull rs (Param.scalar x) SizeArg.none chunks gpu
        (DtypeKw.given (some d)) e).result =
      Except.ok ⟨⟨⟨Option.none, rs.state, some (npDtype d), gpu.getD false,
        Param.scalar x⟩, [], [], chunks⟩, rs⟩) := by
  refine ⟨?_, ?_, rfl⟩
  · intro hneg
    have hp : npWeibullSample ⟨e⟩ (handle_array a) [0] =
        Except.error RandError.parameterDomainError := by
      unfold npWeibullSample
      exact if_neg hneg
    unfold weibull
    dsimp only
    rw [hp]
    rfl
  · intro hy
    have hcond : ((handle_array (Param.scalar y)).elems.all
        (fun v => 0 ≤ v)) = true := by
      simp [handle_array, Param.elems, hy]
    have hp : npWeibullSample ⟨e⟩ (handle_array (Param.scalar y)) [0] =
        Except.ok (⟨[0], NpDtype.float64⟩, ⟨e⟩) := by
      unfold npWeibullSample
      rw [if_pos hcond]
    unfold weibull
    dsimp only
    rw [hp]
    rfl

/-- Witness for the amended C4: `a = -1` with no dtype raises the domain
error; `a = 0` with no dtype constructs a node; `a = -1` with dtype
`'f8'` constructs a node. -/
theorem c4_amended_domain_check_only_in_probe_witness :
    ¬ ((handle_array (Param.scalar (-1))).elems.all (fun v => 0 ≤ v) = true) ∧
    (weibull ⟨0⟩ (Param.scalar (-1)) SizeArg.none Option.none Option.none
        DtypeKw.absent 0).result =
      Except.error RandError.parameterDomainError ∧
    (0 : ℚ) ≤ 0 ∧
    ((weibull ⟨0⟩ (Param.scalar 0) SizeArg.none Option.none Option.none
        DtypeKw.absent 0).result =
      Except.ok ⟨⟨⟨Option.none, 0, some NpDtype.float64, false,
        Param.scalar 0⟩, [], [], Option.none⟩, ⟨0⟩⟩) ∧
    ((weibull ⟨0⟩ (Param.scalar (-1)) SizeArg.none Option.none Option.none
        (DtypeKw.given (some DtypeSpec.f8)) 0).result =
      Except.ok ⟨⟨⟨Option.none, 0, some NpDtype.float64, false,
        Param.scalar (-1)⟩, [], [], Option.none⟩, ⟨0⟩⟩) :=
  ⟨by decide,
   (c4_amended_domain_check_only_in_probe ⟨0⟩ (Param.scalar (-1)) (-1) 0
      SizeArg.none Option.none Option.none DtypeSpec.f8 0).1 (by decide),
   by decide,
   (c4_amended_domain_check_only_in_probe ⟨0⟩ (Param.scalar (-1)) (-1) 0
      SizeArg.none Option.none Option.none DtypeSpec.f8 0).2.1 (by decide),
   (c4_amended_domain_check_only_in_probe ⟨0⟩ (Param.scalar (-1)) (-1) 0
      SizeArg.none Option.none Option.none DtypeSpec.f8 0).2.2⟩

/-- C5: `uniform(rs, low=[0,0], high=[1,1,1])` raises
`BroadcastShapeError` at construction time — the call itself returns the
error, no node is produced — because shapes `(2,)` and `(3,)` are
broadcast-incompatible; this holds whatever the other arguments. -/
theorem c5_incompatible_shapes_error
    (rs : RandomState) (chunks : Option (List ℕ)) (gpu : Option Bool)
    (kw : DtypeKw) (e : ℕ) :
    (uniform rs (Param.array [2] [0, 0]) (Param.array [3] [1, 1, 1])
        SizeArg.none chunks gpu kw e).result =
      Except.error RandError.broadcastShapeError := by
  cases kw with
  | absent => rfl
  | given d => cases d <;> rfl

/-- C6: `uniform(rs, low=5.0, high=5.0, size=10)` raises nothing and
returns a node whose advertised shape is `(10,)`. -/
theorem c6_equal_bounds_shape_ten (rs : RandomState) (e : ℕ) :
    Except.map (fun c => c.node.shape)
        (uniform rs (Param.scalar 5) (Param.scalar 5) (SizeArg.int 10)
          Option.none Option.none DtypeKw.absent e).result =
      Except.ok [10] := by
  rfl

/-- Two `uniform` constructions in sequence with the same arguments,
threading the caller's random state out of the first call into the
second, as two successive public calls would; yields the two operands. -/
def uniformTwice (rs : RandomState) (low high : Param) (size : SizeArg)
    (chunks : Option (List ℕ)) (gpu : Option Bool) (kw : DtypeKw)
    (e₁ e₂ : ℕ) : Except RandError (UniformOperand × UniformOperand) :=
  match (uniform rs low high size chunks gpu kw e₁).result with
  | .error er => .error er
  | .ok c₁ =>
      match (uniform c₁.finalState low high size chunks gpu kw e₂).result with
      | .error er => .error er
      | .ok c₂ => .ok (c₁.node.op, c₂.node.op)

/-- Two `weibull` constructions in sequence with the same arguments,
threading the caller's random state. -/
def weibullTwice (rs : RandomState) (a : Param) (size : SizeArg)
    (chunks : Option (List ℕ)) (gpu : Option Bool) (kw : DtypeKw)
    (e₁ e₂ : ℕ) : Except RandError (WeibullOperand × WeibullOperand) :=
  match (weibull rs a size chunks gpu kw e₁).result with
  | .error er => .error er
  | .ok c₁ =>
      match (weibull c₁.finalState a size chunks gpu kw e₂).result with
      | .error er => .error er
      | .ok c₂ => .ok (c₁.node.op, c₂.node.op)

/-- C7: constructing an operand twice with identical parameters, size,
dtype request, chunk spec, gpu flag and random-state reference yields
value-equal operands (the operand records are equal field-wise, covering
shape, dtype, gpu flag, distribution parameters and state reference),
independent of the order of the two construction calls. -/
theorem c7_double_construction_value_equal
    (rs : RandomState) (low high a : Param) (size : SizeArg)
    (chunks : Option (List ℕ)) (gpu : Option Bool) (kw : DtypeKw)
    (e₁ e₂ : ℕ) (pu : UniformOperand × UniformOperand)
    (pw : WeibullOperand × WeibullOperand) :
    (uniformTwice rs low high size chunks gpu kw e₁ e₂ = Except.ok pu →
      pu.1 = pu.2) ∧
    uniformTwice rs low high size chunks gpu kw e₁ e₂ =
      uniformTwice rs low high size chunks gpu kw e₂ e₁ ∧
    (weibullTwice rs a size chunks gpu kw e₁ e₂ = Except.ok pw →
      pw.1 = pw.2) ∧
    weibullTwice rs a size chunks gpu kw e₁ e₂ =
      weibullTwice rs a size chunks gpu kw e₂ e₁ := by
  refine ⟨?_, ?_, ?_, ?_⟩
  · intro h
    unfold uniformTwice at h
    rcases h1 : (uniform rs low high size chunks gpu kw e₁).result
      with er | c₁ <;> rw [h1] at h <;> (try dsimp only at h)
    · exact Except.noConfusion h
    · have hfs : c₁.finalState = rs := by
        obtain ⟨sz, shape, -, -, rfl⟩ := uniform_ok_inv h1
        rfl
      rw [hfs, uniform_entropy_eq rs low high size chunks gpu kw e₂ e₁,
        h1] at h
      dsimp only at h
      injection h with h
      subst h
      rfl
  · unfold uniformTwice
    rw [uniform_entropy_eq rs low high size chunks gpu kw e₁ e₂]
    rcases (uniform rs low high size chunks gpu kw e₂).result with er | c₁
    · rfl
    · dsimp only
      rw [uniform_entropy_eq c₁.finalState low high size chunks gpu kw e₂ e₁]
  · intro h
    unfold weibullTwice at h
    rcases h1 : (weibull rs a size chunks gpu kw e₁).result
      with er | c₁ <;> rw [h1] at h <;> (try dsimp only at h)
    · exact Except.noConfusion h
    · have hfs : c₁.finalState = rs := by
        obtain ⟨sz, shape, kwd, -, -, -, rfl⟩ := weibull_ok_inv h1
        rfl
      rw [hfs, weibull_entropy_eq rs a size chunks gpu kw e₂ e₁, h1] at h
      dsimp only at h
      injection h with h
      subst h
      rfl
  · unfold weibullTwice
    rw [weibull_entropy_eq rs a size chunks gpu kw e₁ e₂]
    rcases (weibull rs a size chunks gpu kw e₂).result with er | c₁
    · rfl
    · dsimp only
      rw [weibull_entropy_eq c₁.finalState a size chunks gpu kw e₂ e₁]

/-- Witness for C7: concrete double constructions (distinct probe seeds)
produce equal operand pairs in either order. -/
theorem c7_double_construction_value_equal_witness :
    (uniformTwice ⟨7⟩ (Param.scalar 0) (Param.scalar 1) SizeArg.none
        Option.none Option.none DtypeKw.absent 3 4 =
      Except.ok (⟨Option.none, 7, some NpDtype.float64, false, Param.scalar 0,
          Param.scalar 1⟩,
        ⟨Option.none, 7, some NpDtype.float64, false, Param.scalar 0,
          Param.scalar 1⟩)) ∧
    (Prod.fst ((⟨Option.none, 7, some NpDtype.float64, false, Param.scalar 0,
          Param.scalar 1⟩,
        ⟨Option.none, 7, some NpDtype.float64, false, Param.scalar 0,
          Param.scalar 1⟩) : UniformOperand × UniformOperand)) =
      Prod.snd ((⟨Option.none, 7, some NpDtype.float64, false, Param.scalar 0,
          Param.scalar 1⟩,
        ⟨Option.none, 7, some NpDtype.float64, false, Param.scalar 0,
          Param.scalar 1⟩) : UniformOperand × UniformOperand) ∧
    uniformTwice ⟨7⟩ (Param.scalar 0) (Param.scalar 1) SizeArg.none
        Option.none Option.none DtypeKw.absent 3 4 =
      uniformTwice ⟨7⟩ (Param.scalar 0) (Param.scalar 1) SizeArg.none
        Option.none Option.none DtypeKw.absent 4 3 ∧
    (weibullTwice ⟨7⟩ (Param.scalar 5) SizeArg.none Option.none Option.none
        DtypeKw.absent 3 4 =
      Except.ok (⟨Option.none, 7, some NpDtype.float64, false,
          Param.scalar 5⟩,
        ⟨Option.none, 7, some NpDtype.float64, false, Param.scalar 5⟩)) ∧
    (Prod.fst ((⟨Option.none, 7, some NpDtype.float64, false, Param.scalar 5⟩,
        ⟨Option.none, 7, some NpDtype.float64, false, Param.scalar 5⟩) :
        WeibullOperand × WeibullOperand)) =
      Prod.snd ((⟨Option.none, 7, some NpDtype.float64, false,
          Param.scalar 5⟩,
        ⟨Option.none, 7, some NpDtype.float64, false, Param.scalar 5⟩) :
        WeibullOperand × WeibullOperand) ∧
    weibullTwice ⟨7⟩ (Param.scalar 5) SizeArg.none Option.none Option.none
        DtypeKw.absent 3 4 =
      weibullTwice ⟨7⟩ (Param.scalar 5) SizeArg.none Option.none Option.none
        DtypeKw.absent 4 3 :=
  ⟨by decide,
   (c7_double_construction_value_equal ⟨7⟩ (Param.scalar 0) (Param.scalar 1)
      (Param.scalar 5) SizeArg.none Option.none Option.none DtypeKw.absent 3 4
      (⟨Option.none, 7, some NpDtype.float64, false, Param.scalar 0,
          Param.scalar 1⟩,
        ⟨Option.none, 7, some NpDtype.float64, false, Param.scalar 0,
          Param.scalar 1⟩)
      (⟨Option.none, 7, some NpDtype.float64, false, Param.scalar 5⟩,
        ⟨Option.none, 7, some NpDtype.float64, false,
          Param.scalar 5⟩)).1 (by decide),
   (c7_double_construction_value_equal ⟨7⟩ (Param.scalar 0) (Param.scalar 1)
      (Param.scalar 5) SizeArg.none Option.none Option.none DtypeKw.absent 3 4
      (⟨Option.none, 7, some NpDtype.float64, false, Param.scalar 0,
          Param.scalar 1⟩,
        ⟨Option.none, 7, some NpDtype.float64, false, Param.scalar 0,
          Param.scalar 1⟩)
      (⟨Option.none, 7, some NpDtype.float64, false, Param.scalar 5⟩,
        ⟨Option.none, 7, some NpDtype.float64, false,
          Param.scalar 5⟩)).2.1,
   by decide,
   (c7_double_construction_value_equal ⟨7⟩ (Param.scalar 0) (Param.scalar 1)
      (Param.scalar 5) SizeArg.none Option.none Option.none DtypeKw.absent 3 4
      (⟨Option.none, 7, some NpDtype.float64, false, Param.scalar 0,
          Param.scalar 1⟩,
        ⟨Option.none, 7, some NpDtype.float64, false, Param.scalar 0,
          Param.scalar 1⟩)
      (⟨Option.none, 7, some NpDtype.float64, false, Param.scalar 5⟩,
        ⟨Option.none, 7, some NpDtype.float64, false,
          Param.scalar 5⟩)).2.2.1 (by decide),
   (c7_double_construction_value_equal ⟨7⟩ (Param.scalar 0) (Param.scalar 1)
      (Param.scalar 5) SizeArg.none Option.none Option.none DtypeKw.absent 3 4
      (⟨Option.none, 7, some NpDtype.float64, false, Param.scalar 0,
          Param.scalar 1⟩,
        ⟨Option.none, 7, some NpDtype.float64, false, Param.scalar 0,
          Param.scalar 1⟩)
      (⟨Option.none, 7, some NpDtype.float64, false, Param.scalar 5⟩,
        ⟨Option.none, 7, some NpDtype.float64, false,
          Param.scalar 5⟩)).2.2.2⟩

/-- C8: when the caller does not pass the `gpu` argument (python default
`None`), the constructed operand's gpu flag field is the boolean
`false`. -/
theorem c8_gpu_defaults_false
    (rs : RandomState) (low high a : Param) (size : SizeArg)
    (chunks : Option (List ℕ)) (kw : DtypeKw) (e : ℕ)
    (cu : CallOk UniformOperand) (cw : CallOk WeibullOperand) :
    ((uniform rs low high size chunks Option.none kw e).result =
        Except.ok cu → cu.node.op.gpu = false) ∧
    ((weibull rs a size chunks Option.none kw e).result = Except.ok cw →
      cw.node.op.gpu = false) := by
  constructor
  · intro h
    obtain ⟨sz, shape, -, -, rfl⟩ := uniform_ok_inv h
    rfl
  · intro h
    obtain ⟨sz, shape, kwd, -, -, -, rfl⟩ := weibull_ok_inv h
    rfl

/-- Witness for C8 at concrete inputs. -/
theorem c8_gpu_defaults_false_witness :
    ((uniform ⟨7⟩ (Param.scalar 0) (Param.scalar 1) SizeArg.none Option.none
        Option.none DtypeKw.absent 3).result =
      Except.ok ⟨⟨⟨Option.none, 7, some NpDtype.float64, false, Param.scalar 0,
        Param.scalar 1⟩, [], [], Option.none⟩, ⟨7⟩⟩) ∧
    (CallOk.node (⟨⟨⟨Option.none, 7, some NpDtype.float64, false,
        Param.scalar 0, Param.scalar 1⟩, [], [], Option.none⟩, ⟨7⟩⟩ :
        CallOk UniformOperand)).op.gpu = false ∧
    ((weibull ⟨7⟩ (Param.scalar 5) SizeArg.none Option.none Option.none
        DtypeKw.absent 3).result =
      Except.ok ⟨⟨⟨Option.none, 7, some NpDtype.float64, false,
        Param.scalar 5⟩, [], [], Option.none⟩, ⟨7⟩⟩) ∧
    (CallOk.node (⟨⟨⟨Option.none, 7, some NpDtype.float64, false,
        Param.scalar 5⟩, [], [], Option.none⟩, ⟨7⟩⟩ :
        CallOk WeibullOperand)).op.gpu = false :=
  ⟨by decide,
   (c8_gpu_defaults_false ⟨7⟩ (Param.scalar 0) (Param.scalar 1)
      (Param.scalar 5) SizeArg.none Option.none DtypeKw.absent 3
      (⟨⟨⟨Option.none, 7, some NpDtype.float64, false, Param.scalar 0,
        Param.scalar 1⟩, [], [], Option.none⟩, ⟨7⟩⟩ : CallOk UniformOperand)
      (⟨⟨⟨Option.none, 7, some NpDtype.float64, false, Param.scalar 5⟩,
        [], [], Option.none⟩, ⟨7⟩⟩ : CallOk WeibullOperand)).1 (by decide),
   by decide,
   (c8_gpu_defaults_false ⟨7⟩ (Param.scalar 0) (Param.scalar 1)
      (Param.scalar 5) SizeArg.none Option.none DtypeKw.absent 3
      (⟨⟨⟨Option.none, 7, some NpDtype.float64, false, Param.scalar 0,
        Param.scalar 1⟩, [], [], Option.none⟩, ⟨7⟩⟩ : CallOk UniformOperand)
      (⟨⟨⟨Option.none, 7, some NpDtype.float64, false, Param.scalar 5⟩,
        [], [], Option.none⟩, ⟨7⟩⟩ : CallOk WeibullOperand)).2 (by decide)⟩

/-- C9: with an explicit non-`None` dtype keyword, the constructed
operand's dtype is the `np.dtype`-canonicalized form of the supplied
value, and no zero-size eager sampling probe is performed during the
call. -/
theorem c9_explicit_dtype_no_probe
    (rs : RandomState) (low high a : Param) (size : SizeArg)
    (chunks : Option (List ℕ)) (gpu : Option Bool) (d : DtypeSpec) (e : ℕ)
    (cu : CallOk UniformOperand) (cw : CallOk WeibullOperand) :
    (uniform rs low high size chunks gpu (DtypeKw.given (some d)) e).probes =
      0 ∧
    ((uniform rs low high size chunks gpu
        (DtypeKw.given (some d)) e).result = Except.ok cu →
      cu.node.op.dtype = some (npDtype d)) ∧
    (weibull rs a size chunks gpu (DtypeKw.given (some d)) e).probes = 0 ∧
    ((weibull rs a size chunks gpu (DtypeKw.given (some d)) e).result =
        Except.ok cw → cw.node.op.dtype = some (npDtype d)) := by
  refine ⟨uniform_probes_eq rs low high size chunks gpu
      (DtypeKw.given (some d)) e, ?_,
    weibull_probes_eq rs a size chunks gpu (DtypeKw.given (some d)) e, ?_⟩
  · intro h
    obtain ⟨sz, shape, -, -, rfl⟩ := uniform_ok_inv h
    rfl
  · intro h
    obtain ⟨sz, shape, kwd, -, -, hkwd, rfl⟩ := weibull_ok_inv h
    subst hkwd
    rfl

/-- Witness for C9 at concrete inputs (`dtype='f4'`). -/
theorem c9_explicit_dtype_no_probe_witness :
    (uniform ⟨7⟩ (Param.scalar 0) (Param.scalar 1) SizeArg.none Option.none
        Option.none (DtypeKw.given (some DtypeSpec.f4)) 3).probes = 0 ∧
    ((uniform ⟨7⟩ (Param.scalar 0) (Param.scalar 1) SizeArg.none Option.none
        Option.none (DtypeKw.given (some DtypeSpec.f4)) 3).result =
      Except.ok ⟨⟨⟨Option.none, 7, some NpDtype.float32, false, Param.scalar 0,
        Param.scalar 1⟩, [], [], Option.none⟩, ⟨7⟩⟩) ∧
    (CallOk.node (⟨⟨⟨Option.none, 7, some NpDtype.float32, false,
        Param.scalar 0, Param.scalar 1⟩, [], [], Option.none⟩, ⟨7⟩⟩ :
        CallOk UniformOperand)).op.dtype = some (npDtype DtypeSpec.f4) ∧
    (weibull ⟨7⟩ (Param.scalar 5) SizeArg.none Option.none Option.none
        (DtypeKw.given (some DtypeSpec.f4)) 3).probes = 0 ∧
    ((weibull ⟨7⟩ (Param.scalar 5) SizeArg.none Option.none Option.none
        (DtypeKw.given (some DtypeSpec.f4)) 3).result =
      Except.ok ⟨⟨⟨Option.none, 7, some NpDtype.float32, false,
        Param.scalar 5⟩, [], [], Option.none⟩, ⟨7⟩⟩) ∧
    (CallOk.node (⟨⟨⟨Option.none, 7, some NpDtype.float32, false,
        Param.scalar 5⟩, [], [], Option.none⟩, ⟨7⟩⟩ :
        CallOk WeibullOperand)).op.dtype = some (npDtype DtypeSpec.f4) :=
  ⟨(c9_explicit_dtype_no_probe ⟨7⟩ (Param.scalar 0) (Param.scalar 1)
      (Param.scalar 5) SizeArg.none Option.none Option.none DtypeSpec.f4 3
      (⟨⟨⟨Option.none, 7, some NpDtype.float32, false, Param.scalar 0,
        Param.scalar 1⟩, [], [], Option.none⟩, ⟨7⟩⟩ : CallOk UniformOperand)
      (⟨⟨⟨Option.none, 7, some NpDtype.float32, false, Param.scalar 5⟩,
        [], [], Option.none⟩, ⟨7⟩⟩ : CallOk WeibullOperand)).1,
   by decide,
   (c9_explicit_dtype_no_probe ⟨7⟩ (Param.scalar 0) (Param.scalar 1)
      (Param.scalar 5) SizeArg.none Option.none Option.none DtypeSpec.f4 3
      (⟨⟨⟨Option.none, 7, some NpDtype.float32, false, Param.scalar 0,
        Param.scalar 1⟩, [], [], Option.none⟩, ⟨7⟩⟩ : CallOk UniformOperand)
      (⟨⟨⟨Option.none, 7, some NpDtype.float32, false, Param.scalar 5⟩,
        [], [], Option.none⟩, ⟨7⟩⟩ : CallOk WeibullOperand)).2.1 (by decide),
   (c9_explicit_dtype_no_probe ⟨7⟩ (Param.scalar 0) (Param.scalar 1)
      (Param.scalar 5) SizeArg.none Option.none Option.none DtypeSpec.f4 3
      (⟨⟨⟨Option.none, 7, some NpDtype.float32, false, Param.scalar 0,
        Param.scalar 1⟩, [], [], Option.none⟩, ⟨7⟩⟩ : CallOk UniformOperand)
      (⟨⟨⟨Option.none, 7, some NpDtype.float32, false, Param.scalar 5⟩,
        [], [], Option.none⟩, ⟨7⟩⟩ : CallOk WeibullOperand)).2.2.1,
   by decide,
   (c9_explicit_dtype_no_probe ⟨7⟩ (Param.scalar 0) (Param.scalar 1)
      (Param.scalar 5) SizeArg.none Option.none Option.none DtypeSpec.f4 3
      (⟨⟨⟨Option.none, 7, some NpDtype.float32, false, Param.scalar 0,
        Param.scalar 1⟩, [], [], Option.none⟩, ⟨7⟩⟩ : CallOk UniformOperand)
      (⟨⟨⟨Option.none, 7, some NpDtype.float32, false, Param.scalar 5⟩,
        [], [], Option.none⟩, ⟨7⟩⟩ : CallOk WeibullOperand)).2.2.2
     (by decide)⟩

/-- C10: passing `dtype=None` explicitly — the key present with value
`None` — skips the probing branch (the guard tests key presence, not the
value): no probe is performed and the constructed operand's dtype field
is `None`. -/
theorem c10_dtype_none_skips_probe
    (rs : RandomState) (low high a : Param) (size : SizeArg)
    (chunks : Option (List ℕ)) (gpu : Option Bool) (e : ℕ)
    (cu : CallOk UniformOperand) (cw : CallOk WeibullOperand) :
    (uniform rs low high size chunks gpu
      (DtypeKw.given Option.none) e).probes = 0 ∧
    ((uniform rs low high size chunks gpu
        (DtypeKw.given Option.none) e).result = Except.ok cu →
      cu.node.op.dtype = Option.none) ∧
    (weibull rs a size chunks gpu (DtypeKw.given Option.none) e).probes = 0 ∧
    ((weibull rs a size chunks gpu (DtypeKw.given Option.none) e).result =
        Except.ok cw → cw.node.op.dtype = Option.none) := by
  refine ⟨uniform_probes_eq rs low high size chunks gpu
      (DtypeKw.given Option.none) e, ?_,
    weibull_probes_eq rs a size chunks gpu (DtypeKw.given Option.none) e, ?_⟩
  · intro h
    obtain ⟨sz, shape, -, -, rfl⟩ := uniform_ok_inv h
    rfl
  · intro h
    obtain ⟨sz, shape, kwd, -, -, hkwd, rfl⟩ := weibull_ok_inv h
    subst hkwd
    rfl

/-- Witness for C10 at concrete inputs (`dtype=None`). -/
theorem c10_dtype_none_skips_probe_witness :
    (uniform ⟨7⟩ (Param.scalar 0) (Param.scalar 1) SizeArg.none Option.none
        Option.none (DtypeKw.given Option.none) 3).probes = 0 ∧
    ((uniform ⟨7⟩ (Param.scalar 0) (Param.scalar 1) SizeArg.none Option.none
        Option.none (DtypeKw.given Option.none) 3).result =
      Except.ok ⟨⟨⟨Option.none, 7, Option.none, false, Param.scalar 0,
        Param.scalar 1⟩, [], [], Option.none⟩, ⟨7⟩⟩) ∧
    (CallOk.node (⟨⟨⟨Option.none, 7, Option.none, false, Param.scalar 0,
        Param.scalar 1⟩, [], [], Option.none⟩, ⟨7⟩⟩ :
        CallOk UniformOperand)).op.dtype = Option.none ∧
    (weibull ⟨7⟩ (Param.scalar 5) SizeArg.none Option.none Option.none
        (DtypeKw.given Option.none) 3).probes = 0 ∧
    ((weibull ⟨7⟩ (Param.scalar 5) SizeArg.none Option.none Option.none
        (DtypeKw.given Option.none) 3).result =
      Except.ok ⟨⟨⟨Option.none, 7, Option.none, false, Param.scalar 5⟩,
        [], [], Option.none⟩, ⟨7⟩⟩) ∧
    (CallOk.node (⟨⟨⟨Option.none, 7, Option.none, false, Param.scalar 5⟩,
        [], [], Option.none⟩, ⟨7⟩⟩ :
        CallOk WeibullOperand)).op.dtype = Option.none :=
  ⟨(c10_dtype_none_skips_probe ⟨7⟩ (Param.scalar 0) (Param.scalar 1)
      (Param.scalar 5) SizeArg.none Option.none Option.none 3
      (⟨⟨⟨Option.none, 7, Option.none, false, Param.scalar 0,
        Param.scalar 1⟩, [], [], Option.none⟩, ⟨7⟩⟩ : CallOk UniformOperand)
      (⟨⟨⟨Option.none, 7, Option.none, false, Param.scalar 5⟩,
        [], [], Option.none⟩, ⟨7⟩⟩ : CallOk WeibullOperand)).1,
   by decide,
   (c10_dtype_none_skips_probe ⟨7⟩ (Param.scalar 0) (Param.scalar 1)
      (Param.scalar 5) SizeArg.none Option.none Option.none 3
      (⟨⟨⟨Option.none, 7, Option.none, false, Param.scalar 0,
        Param.scalar 1⟩, [], [], Option.none⟩, ⟨7⟩⟩ : CallOk UniformOperand)
      (⟨⟨⟨Option.none, 7, Option.none, false, Param.scalar 5⟩,
        [], [], Option.none⟩, ⟨7⟩⟩ : CallOk WeibullOperand)).2.1 (by decide),
   (c10_dtype_none_skips_probe ⟨7⟩ (Param.scalar 0) (Param.scalar 1)
      (Param.scalar 5) SizeArg.none Option.none Option.none 3
      (⟨⟨⟨Option.none, 7, Option.none, false, Param.scalar 0,
        Param.scalar 1⟩, [], [], Option.none⟩, ⟨7⟩⟩ : CallOk UniformOperand)
      (⟨⟨⟨Option.none, 7, Option.none, false, Param.scalar 5⟩,
        [], [], Option.none⟩, ⟨7⟩⟩ : CallOk WeibullOperand)).2.2.1,
   by decide,
   (c10_dtype_none_skips_probe ⟨7⟩ (Param.scalar 0) (Param.scalar 1)
      (Param.scalar 5) SizeArg.none Option.none Option.none 3
      (⟨⟨⟨Option.none, 7, Option.none, false, Param.scalar 0,
        Param.scalar 1⟩, [], [], Option.none⟩, ⟨7⟩⟩ : CallOk UniformOperand)
      (⟨⟨⟨Option.none, 7, Option.none, false, Param.scalar 5⟩,
        [], [], Option.none⟩, ⟨7⟩⟩ : CallOk WeibullOperand)).2.2.2
     (by decide)⟩
